import Mathlib

/-
Verification of the reflex hosting utilities (reflex/utils/hosting.py).

The embedding models the credential file on disk as an explicit state value
threaded through the functions that read or write it, and models each network
round-trip by the response category the server would return, passed in as an
argument.  Fallible Python functions (which raise) become Except-valued Lean
functions; functions whose exceptions are all caught internally return plain
values.
-/

set_option maxHeartbeats 1000000

namespace Hosting

/-- Content of the persisted hosting credential file (HOSTING_JSON).
`emptyFile` is a zero-byte file, which is not valid JSON; `malformed` is any
other content that fails to parse as a JSON object with the expected shape;
`record` is a parsed JSON object with optional fields `access_token` and
`code` (the invitation code). -/
inductive ConfigContent where
  | emptyFile : ConfigContent
  | malformed : ConfigContent
  | record (access_token : Option String) (code : Option String) : ConfigContent
deriving DecidableEq, Repr

/-- State of the credential file on disk: `none` when the file is absent. -/
abbrev FileState := Option ConfigContent

/-- Embeds `get_existing_access_token` (hosting.py lines 25-47).  The source
opens HOSTING_JSON, parses it as JSON, and asserts a non-empty
`access_token` field; any failure (missing file, parse error, missing or
empty token) is caught and re-raised as the single message
"no existing login found". -/
def get_existing_access_token : FileState → Except String (String × Option String)
  | none => .error "no existing login found"
  | some ConfigContent.emptyFile => .error "no existing login found"
  | some ConfigContent.malformed => .error "no existing login found"
  | some (ConfigContent.record none _) => .error "no existing login found"
  | some (ConfigContent.record (some t) code) =>
      if t = "" then .error "no existing login found" else .ok (t, code)

/-- Category of the response the control-plane server returns to one HTTP
request: success, HTTP 403 FORBIDDEN, some other error status (4xx or 5xx,
caught via raise_for_status), or a network-level failure (timeout,
connection error: httpx.RequestError). -/
inductive ServerResponse where
  | ok : ServerResponse
  | forbidden : ServerResponse
  | errorStatus : ServerResponse
  | networkError : ServerResponse
deriving DecidableEq, Repr

/-- Errors raised by `validate_token`: ValueError("access denied") on HTTP
FORBIDDEN, a generic Exception (to be retried) on everything else. -/
inductive AuthError where
  | accessDenied : AuthError
  | transient (msg : String) : AuthError
deriving DecidableEq, Repr

/-- Embeds `validate_token` (hosting.py lines 50-80).  HTTP 403 becomes
ValueError("access denied"); a network error becomes Exception("request
error"); any other non-2xx status becomes Exception("server error"). -/
def validate_token : ServerResponse → Except AuthError Unit
  | ServerResponse.ok => .ok ()
  | ServerResponse.forbidden => .error AuthError.accessDenied
  | ServerResponse.networkError => .error (AuthError.transient "request error")
  | ServerResponse.errorStatus => .error (AuthError.transient "server error")

/-- Embeds `delete_token_from_config` (hosting.py lines 83-96).  When the
file exists the source opens it with mode "w", which truncates it to zero
bytes immediately; the subsequent `json.load` on the write-only handle then
raises and the exception is swallowed, so the net effect is that the whole
record is replaced by an empty (hence malformed) file.  When the file is
absent nothing happens.  The function never raises. -/
def delete_token_from_config : FileState → FileState
  | none => none
  | some _ => some ConfigContent.emptyFile

/-- Embeds the inline deletion attempt inside `authenticated_token`
(hosting.py lines 137-144).  The source opens HOSTING_JSON with mode "rw",
which Python rejects with ValueError before the file is touched; the
exception is caught by the inner handler at line 143, so the file state is
always left unchanged. -/
def attempt_inline_token_delete (fs : FileState) : FileState := fs

/-- One network round-trip the client may perform, for tracing which calls
happen before a local failure. -/
inductive NetCall where
  | validateCall : NetCall
  | deleteCall : NetCall
deriving DecidableEq, Repr

/-- Result of one run of `authenticated_token`: the returned value, the
credential-file state afterwards, and the network calls performed. -/
structure AuthTokenRun where
  result : Option String
  file : FileState
  calls : List NetCall
deriving DecidableEq, Repr

/-- Embeds `authenticated_token` (hosting.py lines 121-145).  It loads the
cached token, short-circuits to None when loading fails, posts one
validation request otherwise, and returns the token exactly when the server
answers success.  On any failure it attempts the (always-failing) inline
deletion and returns None; every exception is caught, so the function is
total. -/
def authenticated_token (fs : FileState) (server : ServerResponse) : AuthTokenRun :=
  match get_existing_access_token fs with
  | .error _ =>
      { result := none, file := attempt_inline_token_delete fs, calls := [] }
  | .ok (token, _) =>
      -- source line 130: `if not token` guard, unreachable since loading
      -- already rejects empty tokens, kept for fidelity
      if token = "" then { result := none, file := fs, calls := [] }
      else
        match validate_token server with
        | .ok _ =>
            { result := some token, file := fs, calls := [NetCall.validateCall] }
        | .error _ =>
            { result := none
              file := attempt_inline_token_delete fs
              calls := [NetCall.validateCall] }

/-- Outcome of `validate_token_with_retries`: token accepted, process
terminated by SystemExit("Access denied"), or retry budget exhausted
(returns False). -/
inductive RetryOutcome where
  | valid : RetryOutcome
  | systemExit : RetryOutcome
  | exhausted : RetryOutcome
deriving DecidableEq, Repr

/-- Retry loop of `validate_token_with_retries` (hosting.py lines 850-874).
`responses i` is the server response to the i-th validation attempt.  On
success it returns True; on access denied it deletes the stored token and
raises SystemExit; on a transient error it sleeps and retries until the
budget runs out. -/
def validate_token_with_retries_aux (responses : Nat → ServerResponse)
    (fs : FileState) : Nat → Nat → RetryOutcome × FileState
  | _, 0 => (RetryOutcome.exhausted, fs)
  | i, Nat.succ fuel =>
      match validate_token (responses i) with
      | .ok _ => (RetryOutcome.valid, fs)
      | .error AuthError.accessDenied =>
          (RetryOutcome.systemExit, delete_token_from_config fs)
      | .error (AuthError.transient _) =>
          validate_token_with_retries_aux responses fs (i + 1) fuel

/-- Embeds `validate_token_with_retries`.  The retry budget
(constants.Hosting.WEB_AUTH_RETRIES) lives in reflex/constants.py, which is
not part of the sources here, so it is a parameter. -/
def validate_token_with_retries (retries : Nat) (responses : Nat → ServerResponse)
    (fs : FileState) : RetryOutcome × FileState :=
  validate_token_with_retries_aux responses fs 0 retries

/-- Outcome of `delete_deployment`: Exception("not authenticated"),
ValueError for a missing key, success, or an HTTP-level failure. -/
inductive DelResult where
  | notAuthenticated : DelResult
  | invalidArgument : DelResult
  | success : DelResult
  | httpFailure : DelResult
deriving DecidableEq, Repr

/-- Embeds `delete_deployment` (hosting.py lines 603-634) together with the
trace of network round-trips it performs.  The source first calls
`authenticated_token` (which posts a validation request whenever a cached
token exists), then checks the key for emptiness, and only then sends the
DELETE request. -/
def delete_deployment (fs : FileState) (authServer delServer : ServerResponse)
    (key : String) : DelResult × List NetCall :=
  let auth := authenticated_token fs authServer
  match auth.result with
  | none => (DelResult.notAuthenticated, auth.calls)
  | some _ =>
      if key = "" then (DelResult.invalidArgument, auth.calls)
      else
        match delServer with
        | ServerResponse.ok => (DelResult.success, auth.calls ++ [NetCall.deleteCall])
        | _ => (DelResult.httpFailure, auth.calls ++ [NetCall.deleteCall])

/-- Embeds `DeploymentPrepInfo` (hosting.py lines 160-171): a deployment key
with its backend and frontend URLs. -/
structure DeploymentPrepInfo where
  key : String
  api_url : String
  deploy_url : String
deriving DecidableEq, Repr

/-- Embeds `DeploymentPrepareResponse` (hosting.py lines 174-191): the
app prefix plus the three optional fields reply / existing / suggestion. -/
structure DeploymentPrepareResponse where
  app_prefix : String
  reply : Option DeploymentPrepInfo
  existing : Option (List DeploymentPrepInfo)
  suggestion : Option DeploymentPrepInfo
deriving DecidableEq, Repr

/-- Python truthiness test `not values.get("existing")`: true when the field
is absent or is an empty list. -/
def existing_falsy : Option (List DeploymentPrepInfo) → Bool
  | none => true
  | some l => l.isEmpty

/-- Embeds construction of a `DeploymentPrepareResponse` through its
pre-validation root validator `ensure_at_least_one_deploy_params`
(hosting.py lines 193-214): when reply is None, existing is falsy and
suggestion is None, a ValueError is raised before the object is built. -/
def mk_deployment_prepare_response ( app_prefix : String)
    (reply : Option DeploymentPrepInfo) (existing : Option (List DeploymentPrepInfo))
    (suggestion : Option DeploymentPrepInfo) : Except String DeploymentPrepareResponse :=
  if reply.isNone && existing_falsy existing && suggestion.isNone then
    .error "At least one set of params for deploy is required from control plane."
  else
    .ok ⟨ app_prefix, reply, existing, suggestion⟩

/-- Number of populated members among \x7breply, existing (as a non-empty
list), suggestion\x7d of a constructed response. -/
def populated_count (r : DeploymentPrepareResponse) : Nat :=
  (if r.reply.isSome then 1 else 0)
    + (if existing_falsy r.existing then 0 else 1)
    + (if r.suggestion.isSome then 1 else 0)

/-- Embeds `SiteStatus` (hosting.py lines 637-647). -/
structure SiteStatus where
  frontend_url : Option String
  backend_url : Option String
  reachable : Bool
  updated_at : Option String
deriving DecidableEq, Repr

/-- Embeds construction of a `SiteStatus` through its pre-validation root
validator `ensure_one_of_urls` (hosting.py lines 649-664): when both URLs
are None a ValueError is raised before the object is built. -/
def mk_site_status (frontend_url backend_url : Option String) (reachable : Bool)
    (updated_at : Option String) : Except String SiteStatus :=
  if frontend_url.isNone && backend_url.isNone then
    .error "At least one of the URLs is required."
  else
    .ok ⟨frontend_url, backend_url, reachable, updated_at⟩

/-- Python `env.split("=", maxsplit=1)` restricted to the two-part case:
splits a character list at the first occurrence of the = sign, returning
none when the sign is absent (so the split would have length 1). -/
def splitAtEq : List Char → Option (List Char × List Char)
  | [] => none
  | c :: cs =>
      if c = '=' then some ([], cs)
      else
        match splitAtEq cs with
        | none => none
        | some (k, v) => some (c :: k, v)

/-- First character class of the key pattern [a-zA-Z_][a-zA-Z0-9_]* used by
`process_envs` (re.match at hosting.py line 951). -/
def isIdentStart (c : Char) : Bool := c.isAlpha || c = '_'

/-- Continuation character class of the key pattern. -/
def isIdentChar (c : Char) : Bool := c.isAlphanum || c = '_'

/-- Tail of the key after its first character, per the regex part
`[a-zA-Z0-9_]*$` under Python semantics: without MULTILINE the `$` anchor
matches at the end of the string or just before one newline that ends the
string, so the tail is a run of identifier characters optionally followed
by exactly one final newline. -/
def identTail : List Char → Bool
  | [] => true
  | c :: cs => (isIdentChar c && identTail cs) || (c == '\n' && cs.isEmpty)

/-- The key test re.match(r"^[a-zA-Z_][a-zA-Z0-9_]*$", key) of
`process_envs` (hosting.py line 951): an identifier-start character
followed by `identTail`, which, like the Python `$` anchor, also accepts a
key ending in one trailing newline. -/
def validEnvKey (s : String) : Bool :=
  match s.toList with
  | [] => false
  | c :: cs => isIdentStart c && identTail cs

/-- Embeds `process_envs` (hosting.py lines 933-956).  The Python dict built
in insertion order is modelled as the association list of processed pairs;
every entry must split as key=value with the key matching the identifier
pattern, and the first offending entry raises SystemExit.  The function is
pure and performs no network call. -/
def process_envs : List String → Except String (List (String × String))
  | [] => .ok []
  | e :: rest =>
      match splitAtEq e.toList with
      | none => .error "Invalid env format: should be <key>=<value>."
      | some (k, v) =>
          if validEnvKey (String.mk k) then
            match process_envs rest with
            | .error m => .error m
            | .ok tl => .ok ((String.mk k, String.mk v) :: tl)
          else
            .error "Invalid env name: should start with a letter or underscore, followed by letters, digits, or underscores."

/-- Contiguous-occurrence test for character lists, the model of the Python
substring operator `p in s`. -/
def listSubstr (p s : List Char) : Bool :=
  (List.range (s.length + 1)).any (fun i => p.isPrefixOf (s.drop i))

/-- Python `p in s` on strings. -/
def substrOf (p s : String) : Bool := listSubstr p.toList s.toList

/-- Python `s.lower()`: every character mapped to its lowercase form (the
streamed milestone messages are ASCII). -/
def strToLower (s : String) : String := String.mk (s.data.map Char.toLower)

/-- The end-of-deployment test at hosting.py lines 1012-1015:
`any(msg in row_json["message"].lower() for msg in END_OF_DEPLOYMENT_MESSAGES)`.
The message is lowercased and each configured phrase is searched in it. -/
def message_has_end_phrase (phrases : List String) (message : String) : Bool :=
  phrases.any (fun p => substrOf p (strToLower message))

/-- One frame received from the milestone stream, per the protocol data
model: `none` is a falsy or non-object frame (a benign heartbeat), `some
(timestamp, message)` is an event record. -/
abbrev Frame := Option (String × String)

/-- Whether a frame is an event whose message triggers the end-of-deployment
exit of the milestone loop. -/
def frame_is_end (phrases : List String) : Frame → Bool
  | none => false
  | some (_, msg) => message_has_end_phrase phrases msg

/-- Result of the milestone streaming loop: stopped successfully at the
frame with the given index, or stopped because the message-count budget ran
out. -/
inductive MilestoneResult where
  | endDetected (idx : Nat) : MilestoneResult
  | exhausted : MilestoneResult
deriving DecidableEq, Repr

/-- The `for _ in range(...)` receive loop of `display_deploy_milestones`
(hosting.py lines 999-1021).  `stream i` is the i-th frame received; each
iteration consumes one frame; an event frame whose message contains a
configured phrase returns immediately, any other frame is printed or
skipped and the loop continues until the fuel runs out. -/
def display_deploy_milestones_loop (phrases : List String) (stream : Nat → Frame) :
    Nat → Nat → MilestoneResult
  | _, 0 => MilestoneResult.exhausted
  | i, Nat.succ fuel =>
      match stream i with
      | none => display_deploy_milestones_loop phrases stream (i + 1) fuel
      | some (_, msg) =>
          if message_has_end_phrase phrases msg then MilestoneResult.endDetected i
          else display_deploy_milestones_loop phrases stream (i + 1) fuel

/-- Embeds `display_deploy_milestones` (hosting.py lines 977-1023).  The
retry budget DEPLOYMENT_EVENT_MESSAGES_RETRIES and the phrase list
END_OF_DEPLOYMENT_MESSAGES live in reflex/constants.py, which is not among
the sources here, so both are parameters. -/
def display_deploy_milestones (retries : Nat) (phrases : List String)
    (stream : Nat → Frame) : MilestoneResult :=
  display_deploy_milestones_loop phrases stream 0 retries

/-- Components of a timezone-aware local datetime as needed by the display
format, the result of `datetime.fromisoformat(s).astimezone()`. -/
structure LocalDateTime where
  year : Nat
  month : Nat
  day : Nat
  hour : Nat
  minute : Nat
  second : Nat
  microsecond : Nat
  tzname : String
deriving DecidableEq, Repr

/-- Zero-pads a number to the given width, as strftime field rendering
does. -/
def padNum (w n : Nat) : String :=
  let s := toString n
  if s.length < w then String.mk (List.replicate (w - s.length) '0') ++ s else s

/-- The fixed display format "%Y-%m-%d %H:%M:%S.%f %Z" applied by
`convert_to_local_time` (hosting.py line 733). -/
def strftime_fmt (dt : LocalDateTime) : String :=
  padNum 4 dt.year ++ "-" ++ padNum 2 dt.month ++ "-" ++ padNum 2 dt.day ++ " "
    ++ padNum 2 dt.hour ++ ":" ++ padNum 2 dt.minute ++ ":" ++ padNum 2 dt.second
    ++ "." ++ padNum 6 dt.microsecond ++ " " ++ dt.tzname

/-- Embeds `convert_to_local_time` (hosting.py lines 722-736).  The stdlib
composition `datetime.fromisoformat(s).astimezone()` is an external
collaborator (its result depends on the machine timezone), so it is a
parameter returning `none` when it raises; on parse failure the original
string is returned unchanged and nothing is ever raised. -/
def convert_to_local_time (parseLocal : String → Option LocalDateTime)
    (iso_timestamp : String) : String :=
  match parseLocal iso_timestamp with
  | some dt => strftime_fmt dt
  | none => iso_timestamp

/-- An env entry the `process_envs` loop body rejects: no = sign, or a key
that fails the identifier pattern. -/
def env_entry_rejected (e : String) : Bool :=
  match splitAtEq e.toList with
  | none => true
  | some (k, _) => !(validEnvKey (String.mk k))

/-- Sample stand-in for `datetime.fromisoformat(s).astimezone()` on a
machine whose local timezone is UTC, defined on one concrete timestamp. -/
def sampleParse : String → Option LocalDateTime :=
  fun s =>
    if s = "2023-08-01T12:30:45.123456+00:00" then
      some ⟨2023, 8, 1, 12, 30, 45, 123456, "UTC"⟩
    else none

/- ------------------------------------------------------------------ -/
/- Helper lemmas                                                       -/
/- ------------------------------------------------------------------ -/

theorem get_existing_token_ne_empty {fs : FileState} {t : String} {c : Option String}
    (h : get_existing_access_token fs = .ok (t, c)) : t ≠ "" := by
  cases fs with
  | none => simp [get_existing_access_token] at h
  | some content =>
    cases content with
    | emptyFile => simp [get_existing_access_token] at h
    | malformed => simp [get_existing_access_token] at h
    | record tok code =>
      cases tok with
      | none => simp [get_existing_access_token] at h
      | some t0 =>
        by_cases ht : t0 = ""
        · simp [get_existing_access_token, ht] at h
        · simp [get_existing_access_token, ht] at h
          obtain ⟨h1, h2⟩ := h
          subst h1
          exact ht

theorem authenticated_token_calls (fs : FileState) (server : ServerResponse) :
    (authenticated_token fs server).calls = []
    ∨ (authenticated_token fs server).calls = [NetCall.validateCall] := by
  cases hload : get_existing_access_token fs with
  | error e => left; simp [authenticated_token, hload]
  | ok p =>
    obtain ⟨tok, code⟩ := p
    by_cases ht : tok = ""
    · left; simp [authenticated_token, hload, ht]
    · cases hv : validate_token server with
      | ok u => right; simp [authenticated_token, hload, ht, hv]
      | error e => right; simp [authenticated_token, hload, ht, hv]

theorem retries_aux_file_unchanged (responses : Nat → ServerResponse) (fs : FileState) :
    ∀ (fuel i : Nat),
      (∀ j, i ≤ j → j < i + fuel → responses j ≠ ServerResponse.forbidden) →
      (validate_token_with_retries_aux responses fs i fuel).2 = fs := by
  intro fuel
  induction fuel with
  | zero => intro i _; rfl
  | succ n ih =>
    intro i h
    cases hr : responses i with
    | ok => simp [validate_token_with_retries_aux, validate_token, hr]
    | forbidden => exact absurd hr (h i (le_refl i) (by omega))
    | errorStatus =>
      simp only [validate_token_with_retries_aux, hr, validate_token]
      exact ih (i + 1) (fun j hj1 hj2 => h j (by omega) (by omega))
    | networkError =>
      simp only [validate_token_with_retries_aux, hr, validate_token]
      exact ih (i + 1) (fun j hj1 hj2 => h j (by omega) (by omega))

theorem process_envs_error_of_rejected {envs : List String} {e : String}
    (hmem : e ∈ envs) (hrej : env_entry_rejected e = true) :
    ∃ m, process_envs envs = .error m := by
  induction envs with
  | nil => cases hmem
  | cons a rest ih =>
    cases hmem with
    | head =>
      cases hsplit : splitAtEq e.toList with
      | none =>
        simp only [String.toList] at hsplit
        exact ⟨"Invalid env format: should be <key>=<value>.",
          by simp [process_envs, hsplit]⟩
      | some kv =>
        obtain ⟨k, v⟩ := kv
        simp only [String.toList] at hsplit
        have hk : validEnvKey (String.mk k) = false := by
          simp [env_entry_rejected, String.toList, hsplit] at hrej
          exact hrej
        exact ⟨"Invalid env name: should start with a letter or underscore, followed by letters, digits, or underscores.",
          by simp [process_envs, hsplit, hk]⟩
    | tail _ hmem2 =>
      obtain ⟨m, hm⟩ := ih hmem2
      cases hsplit : splitAtEq a.toList with
      | none =>
        simp only [String.toList] at hsplit
        exact ⟨"Invalid env format: should be <key>=<value>.",
          by simp [process_envs, hsplit]⟩
      | some kv =>
        obtain ⟨k, v⟩ := kv
        simp only [String.toList] at hsplit
        by_cases hk : validEnvKey (String.mk k)
        · exact ⟨m, by simp [process_envs, hsplit, hk, hm]⟩
        · exact ⟨"Invalid env name: should start with a letter or underscore, followed by letters, digits, or underscores.",
            by simp [process_envs, hsplit, hk]⟩

theorem splitAtEq_append {k : List Char} (v : List Char) (hk : '=' ∉ k) :
    splitAtEq (k ++ '=' :: v) = some (k, v) := by
  induction k with
  | nil => simp [splitAtEq]
  | cons c cs ih =>
    have hc : ¬(c = '=') := fun h => hk (by simp [h])
    have hcs : '=' ∉ cs := fun h => hk (List.mem_cons_of_mem _ h)
    simp [splitAtEq, hc, ih hcs]

theorem identTail_no_eq : ∀ cs : List Char, identTail cs = true → '=' ∉ cs := by
  intro cs
  induction cs with
  | nil => intro _; simp
  | cons c cs ih =>
    intro h hmem
    simp only [identTail, Bool.or_eq_true, Bool.and_eq_true] at h
    cases hmem with
    | head =>
      rcases h with ⟨h1, _⟩ | ⟨h1, _⟩
      · exact absurd h1 (by decide)
      · exact absurd h1 (by decide)
    | tail _ hm =>
      rcases h with ⟨_, h2⟩ | ⟨_, h2⟩
      · exact ih h2 hm
      · cases cs with
        | nil => cases hm
        | cons a b => simp at h2

theorem validEnvKey_no_eq {k : String} (h : validEnvKey k = true) : '=' ∉ k.toList := by
  unfold validEnvKey at h
  cases hl : k.toList with
  | nil => rw [hl] at h; simp at h
  | cons c cs =>
    rw [hl] at h
    simp only [Bool.and_eq_true] at h
    obtain ⟨h1, h2⟩ := h
    intro hmem
    cases hmem with
    | head => exact absurd h1 (by decide)
    | tail _ hm => exact identTail_no_eq cs h2 hm

theorem process_envs_single_ok (k v : String) (hk : validEnvKey k = true) :
    process_envs [k ++ "=" ++ v] = .ok [(k, v)] := by
  have hne : '=' ∉ k.data := validEnvKey_no_eq hk
  have hsplit : splitAtEq (k.data ++ '=' :: v.data) = some (k.data, v.data) :=
    splitAtEq_append _ hne
  have hmk : String.mk k.data = k := by cases k; rfl
  have hmv : String.mk v.data = v := by cases v; rfl
  simp [process_envs, hsplit, hmk, hmv, hk]

theorem milestones_loop_end (phrases : List String) (stream : Nat → Frame) :
    ∀ (fuel i n : Nat), i ≤ n → n < i + fuel →
      frame_is_end phrases (stream n) = true →
      (∀ j, i ≤ j → j < n → frame_is_end phrases (stream j) = false) →
      display_deploy_milestones_loop phrases stream i fuel
        = MilestoneResult.endDetected n := by
  intro fuel
  induction fuel with
  | zero => intro i n h1 h2 _ _; exact absurd h2 (by omega)
  | succ m ih =>
    intro i n h1 h2 hend hbefore
    by_cases hin : i = n
    · subst hin
      cases hs : stream i with
      | none => rw [hs] at hend; simp [frame_is_end] at hend
      | some p =>
        obtain ⟨ts, msg⟩ := p
        rw [hs] at hend
        simp only [frame_is_end] at hend
        simp [display_deploy_milestones_loop, hs, hend]
    · have hlt : i < n := by omega
      have hfi : frame_is_end phrases (stream i) = false := hbefore i (le_refl i) hlt
      cases hs : stream i with
      | none =>
        simp only [display_deploy_milestones_loop, hs]
        exact ih (i + 1) n (by omega) (by omega) hend
          (fun j hj1 hj2 => hbefore j (by omega) hj2)
      | some p =>
        obtain ⟨ts, msg⟩ := p
        rw [hs] at hfi
        simp only [frame_is_end] at hfi
        simp only [display_deploy_milestones_loop, hs, hfi, if_false, Bool.false_eq_true]
        exact ih (i + 1) n (by omega) (by omega) hend
          (fun j hj1 hj2 => hbefore j (by omega) hj2)

theorem milestones_loop_exhausted (phrases : List String) (stream : Nat → Frame) :
    ∀ (fuel i : Nat),
      (∀ j, i ≤ j → j < i + fuel → frame_is_end phrases (stream j) = false) →
      display_deploy_milestones_loop phrases stream i fuel
        = MilestoneResult.exhausted := by
  intro fuel
  induction fuel with
  | zero => intro i _; rfl
  | succ m ih =>
    intro i h
    have hfi := h i (le_refl i) (by omega)
    cases hs : stream i with
    | none =>
      simp only [display_deploy_milestones_loop, hs]
      exact ih (i + 1) (fun j hj1 hj2 => h j (by omega) (by omega))
    | some p =>
      obtain ⟨ts, msg⟩ := p
      rw [hs] at hfi
      simp only [frame_is_end] at hfi
      simp only [display_deploy_milestones_loop, hs, hfi, if_false, Bool.false_eq_true]
      exact ih (i + 1) (fun j hj1 hj2 => h j (by omega) (by omega))

/- ------------------------------------------------------------------ -/
/- Claim theorems                                                      -/
/- ------------------------------------------------------------------ -/

/-- C1: the stored credential file is modified only when the server answers
FORBIDDEN (access denied).  `authenticated_token` leaves the file unchanged
on every outcome (its inline deletion attempt always fails on the invalid
open mode), and the retry loop of `validate_token_with_retries` leaves the
file unchanged on every run whose responses are all non-FORBIDDEN; whenever
the file does change, some attempt within the budget was answered
FORBIDDEN. -/
theorem c1_credential_preserved_unless_access_denied :
    (∀ (fs : FileState) (server : ServerResponse),
        (authenticated_token fs server).file = fs)
    ∧ (∀ (retries : Nat) (responses : Nat → ServerResponse) (fs : FileState),
        (∀ i, responses i ≠ ServerResponse.forbidden) →
        (validate_token_with_retries retries responses fs).2 = fs)
    ∧ (∀ (retries : Nat) (responses : Nat → ServerResponse) (fs : FileState),
        (validate_token_with_retries retries responses fs).2 ≠ fs →
        ∃ i, i < retries ∧ responses i = ServerResponse.forbidden) := by
  refine ⟨?_, ?_, ?_⟩
  · intro fs server
    cases hload : get_existing_access_token fs with
    | error e => simp [authenticated_token, hload, attempt_inline_token_delete]
    | ok p =>
      obtain ⟨tok, code⟩ := p
      by_cases ht : tok = ""
      · simp [authenticated_token, hload, ht]
      · cases hv : validate_token server with
        | ok u => simp [authenticated_token, hload, ht, hv]
        | error e =>
            simp [authenticated_token, hload, ht, hv, attempt_inline_token_delete]
  · intro retries responses fs h
    exact retries_aux_file_unchanged responses fs retries 0
      (fun j _ _ => h j)
  · intro retries responses fs h
    by_contra hc
    push_neg at hc
    exact h (retries_aux_file_unchanged responses fs retries 0
      (fun j _ hj2 => hc j (by omega)))

/-- Witness for C1 at concrete inputs: a cached record survives one
transient validation failure inside `authenticated_token` and a full
three-attempt retry run of network errors. -/
theorem c1_witness :
    (authenticated_token (some (ConfigContent.record (some "tok") (some "code")))
        ServerResponse.networkError).file
      = some (ConfigContent.record (some "tok") (some "code"))
    ∧ (validate_token_with_retries 3 (fun _ => ServerResponse.networkError)
        (some (ConfigContent.record (some "tok") (some "code")))).2
      = some (ConfigContent.record (some "tok") (some "code")) :=
  ⟨c1_credential_preserved_unless_access_denied.1
      (some (ConfigContent.record (some "tok") (some "code"))) ServerResponse.networkError,
   c1_credential_preserved_unless_access_denied.2.1 3 (fun _ => ServerResponse.networkError)
      (some (ConfigContent.record (some "tok") (some "code")))
      (fun _ h => ServerResponse.noConfusion h)⟩

/-- C2: evaluation of `delete_token_from_config` at a record holding both a
token and an invitation code.  The source truncates the whole file (open
mode "w" runs before json.load, which then fails on the write-only handle
and is swallowed), so the invitation code is destroyed together with the
token, leaving an empty file that no longer loads. -/
theorem c2_delete_destroys_invitation_code :
    delete_token_from_config (some (ConfigContent.record (some "tok") (some "invite")))
      = some ConfigContent.emptyFile
    ∧ get_existing_access_token
        (delete_token_from_config (some (ConfigContent.record (some "tok") (some "invite"))))
      = .error "no existing login found" :=
  ⟨rfl, rfl⟩

/-- C3 counterexample: with a cached token that the server accepts, calling
`delete_deployment` with the empty key does fail with the local ValueError,
but only after the token-validation network round-trip performed by
`authenticated_token`; with a rejected token the empty-key call fails as
"not authenticated" instead of ValueError. -/
theorem c3_counterexample :
    (delete_deployment (some (ConfigContent.record (some "tok") none))
        ServerResponse.ok ServerResponse.ok "").1 = DelResult.invalidArgument
    ∧ (delete_deployment (some (ConfigContent.record (some "tok") none))
        ServerResponse.ok ServerResponse.ok "").2 = [NetCall.validateCall]
    ∧ (delete_deployment (some (ConfigContent.record (some "tok") none))
        ServerResponse.forbidden ServerResponse.ok "").1 = DelResult.notAuthenticated :=
  ⟨rfl, rfl, rfl⟩

/-- C3 amended: every empty-key call of `delete_deployment` fails before the
deployment-deletion request is sent (the DELETE round-trip never happens),
with ValueError when authentication succeeded and with the
not-authenticated error otherwise; the preceding authentication step may
itself perform one token-validation round-trip. -/
theorem c3_empty_key_fails_before_delete_call (fs : FileState)
    (authServer delServer : ServerResponse) :
    NetCall.deleteCall ∉ (delete_deployment fs authServer delServer "").2
    ∧ ((authenticated_token fs authServer).result ≠ none →
        (delete_deployment fs authServer delServer "").1 = DelResult.invalidArgument)
    ∧ ((authenticated_token fs authServer).result = none →
        (delete_deployment fs authServer delServer "").1 = DelResult.notAuthenticated) := by
  have hcalls := authenticated_token_calls fs authServer
  refine ⟨?_, ?_, ?_⟩
  · cases hres : (authenticated_token fs authServer).result with
    | none =>
      simp only [delete_deployment, hres]
      rcases hcalls with h | h <;> simp [h]
    | some t =>
      simp only [delete_deployment, hres, if_pos]
      rcases hcalls with h | h <;> simp [h]
  · intro hne
    cases hres : (authenticated_token fs authServer).result with
    | none => exact absurd hres hne
    | some t => simp [delete_deployment, hres]
  · intro hnone
    simp [delete_deployment, hnone]

/-- Witness for C3 amended at a concrete input: cached token, server
accepts it, empty key. -/
theorem c3_witness :
    NetCall.deleteCall ∉ (delete_deployment (some (ConfigContent.record (some "tok") none))
        ServerResponse.ok ServerResponse.ok "").2
    ∧ (delete_deployment (some (ConfigContent.record (some "tok") none))
        ServerResponse.ok ServerResponse.ok "").1 = DelResult.invalidArgument :=
  ⟨(c3_empty_key_fails_before_delete_call
      (some (ConfigContent.record (some "tok") none)) ServerResponse.ok ServerResponse.ok).1,
   (c3_empty_key_fails_before_delete_call
      (some (ConfigContent.record (some "tok") none)) ServerResponse.ok ServerResponse.ok).2.1
      (by decide)⟩

/-- C4 counterexample: a prepare response with BOTH reply and suggestion
populated passes the root validator and constructs successfully, so
"exactly one of the three is populated" is false; the validator only
enforces "at least one". -/
theorem c4_counterexample :
    mk_deployment_prepare_response "p" (some ⟨"k", "a", "d"⟩) none (some ⟨"k2", "a2", "d2"⟩)
      = .ok ⟨"p", some ⟨"k", "a", "d"⟩, none, some ⟨"k2", "a2", "d2"⟩⟩
    ∧ populated_count ⟨"p", some ⟨"k", "a", "d"⟩, none, some ⟨"k2", "a2", "d2"⟩⟩ = 2 :=
  ⟨rfl, rfl⟩

/-- C4 amended: construction fails with the validator error exactly when
reply is absent, existing is absent or empty, and suggestion is absent; on
every successful construction at least one of the three members is
populated. -/
theorem c4_at_least_one_populated ( app_prefix : String)
    (reply : Option DeploymentPrepInfo) (existing : Option (List DeploymentPrepInfo))
    (suggestion : Option DeploymentPrepInfo) :
    (mk_deployment_prepare_response app_prefix reply existing suggestion
        = .error "At least one set of params for deploy is required from control plane."
      ↔ (reply = none ∧ existing_falsy existing = true ∧ suggestion = none))
    ∧ (∀ r, mk_deployment_prepare_response app_prefix reply existing suggestion = .ok r →
        1 ≤ populated_count r) := by
  constructor
  · constructor
    · intro h
      by_cases h1 : (reply.isNone && existing_falsy existing && suggestion.isNone) = true
      · simp only [Bool.and_eq_true, Option.isNone_iff_eq_none] at h1
        exact ⟨h1.1.1, h1.1.2, h1.2⟩
      · rw [Bool.not_eq_true] at h1
        simp [mk_deployment_prepare_response, h1] at h
    · rintro ⟨rfl, he, rfl⟩
      simp [mk_deployment_prepare_response, he]
  · intro r h
    by_cases h1 : (reply.isNone && existing_falsy existing && suggestion.isNone) = true
    · simp [mk_deployment_prepare_response, h1] at h
    · rw [Bool.not_eq_true] at h1
      simp only [mk_deployment_prepare_response, h1, Bool.false_eq_true, if_false,
        Except.ok.injEq] at h
      subst h
      cases reply with
      | some p =>
        simp only [populated_count]
        exact le_trans (Nat.le_add_right 1 _) (Nat.le_add_right _ _)
      | none =>
        cases suggestion with
        | some p => simp [populated_count]
        | none =>
          cases hf : existing_falsy existing with
          | true => simp [hf] at h1
          | false => simp [populated_count, hf]

/-- Witness for C4 amended at a concrete input: a response carrying only a
non-empty existing list. -/
theorem c4_witness :
    1 ≤ populated_count ⟨"p", none, some [⟨"k", "a", "d"⟩], none⟩ :=
  (c4_at_least_one_populated "p" none (some [⟨"k", "a", "d"⟩]) none).2
    ⟨"p", none, some [⟨"k", "a", "d"⟩], none⟩ rfl

/-- C5: `process_envs` maps well-formed KEY=VALUE entries to the
corresponding pairs in order; any input list containing an entry without
the = sign fails, any input list containing an entry whose key fails the
identifier pattern fails, and values are unconstrained including the empty
value.  The function performs no network call (it is pure). -/
theorem c5_process_envs :
    process_envs ["k1=v1", "k2=v2"] = .ok [("k1", "v1"), ("k2", "v2")]
    ∧ (∀ (envs : List String) (e : String), e ∈ envs → splitAtEq e.toList = none →
        ∃ m, process_envs envs = .error m)
    ∧ (∀ (envs : List String) (e : String) (k v : List Char), e ∈ envs →
        splitAtEq e.toList = some (k, v) → validEnvKey (String.mk k) = false →
        ∃ m, process_envs envs = .error m)
    ∧ (∀ k v : String, validEnvKey k = true → process_envs [k ++ "=" ++ v] = .ok [(k, v)]) := by
  refine ⟨rfl, ?_, ?_, process_envs_single_ok⟩
  · intro envs e hmem hsplit
    refine process_envs_error_of_rejected hmem ?_
    simp only [String.toList] at hsplit
    simp [env_entry_rejected, String.toList, hsplit]
  · intro envs e k v hmem hsplit hk
    refine process_envs_error_of_rejected hmem ?_
    simp only [String.toList] at hsplit
    simp [env_entry_rejected, String.toList, hsplit, hk]

/-- Witness for C5 at concrete inputs: the spec examples processEnvs(["bad"])
and processEnvs(["1x=v"]) both fail, and an empty value is accepted. -/
theorem c5_witness :
    (∃ m, process_envs ["bad"] = .error m)
    ∧ (∃ m, process_envs ["1x=v"] = .error m)
    ∧ process_envs ["k" ++ "=" ++ ""] = .ok [("k", "")] :=
  ⟨c5_process_envs.2.1 ["bad"] "bad" (List.mem_singleton.mpr rfl) (by decide),
   c5_process_envs.2.2.1 ["1x=v"] "1x=v" ['1', 'x'] ['v'] (List.mem_singleton.mpr rfl)
      (by decide) (by decide),
   c5_process_envs.2.2.2 "k" "" (by decide)⟩

/-- C6: the milestone streaming loop always stops; it returns successfully
at the first received frame whose message (lowercased, as the source does)
contains a configured end-of-deployment phrase, and when no frame within
the message-count budget contains one it stops with the budget
exhausted. -/
theorem c6_milestone_loop_termination (retries : Nat) (phrases : List String)
    (stream : Nat → Frame) :
    (∀ n, n < retries → frame_is_end phrases (stream n) = true →
        (∀ j, j < n → frame_is_end phrases (stream j) = false) →
        display_deploy_milestones retries phrases stream = MilestoneResult.endDetected n)
    ∧ ((∀ n, n < retries → frame_is_end phrases (stream n) = false) →
        display_deploy_milestones retries phrases stream = MilestoneResult.exhausted) := by
  constructor
  · intro n hn hend hbefore
    exact milestones_loop_end phrases stream retries 0 n (Nat.zero_le n) (by omega) hend
      (fun j _ hj2 => hbefore j hj2)
  · intro h
    exact milestones_loop_exhausted phrases stream retries 0 (fun j _ hj2 => h j (by omega))

/-- Witness for C6 at concrete inputs: a stream whose second frame announces
success ends there, and a stream of plain build messages exhausts its
three-frame budget. -/
theorem c6_witness :
    display_deploy_milestones 5 ["deploy success"]
        (fun n => if n = 1 then some ("ts", "Deploy Success: site is up") else none)
      = MilestoneResult.endDetected 1
    ∧ display_deploy_milestones 3 ["deploy success"] (fun _ => some ("ts", "building"))
      = MilestoneResult.exhausted :=
  ⟨(c6_milestone_loop_termination 5 ["deploy success"]
        (fun n => if n = 1 then some ("ts", "Deploy Success: site is up") else none)).1
      1 (by decide) (by decide) (by decide),
   (c6_milestone_loop_termination 3 ["deploy success"]
        (fun _ => some ("ts", "building"))).2 (by decide)⟩

/-- C7: `convert_to_local_time` renders a parseable timestamp in the fixed
local display format, returns any unparseable input unchanged, never
raises (it is total), and the fallback is idempotent. -/
theorem c7_convert_to_local_time (parseLocal : String → Option LocalDateTime)
    (iso_timestamp : String) :
    (∀ dt, parseLocal iso_timestamp = some dt →
        convert_to_local_time parseLocal iso_timestamp = strftime_fmt dt)
    ∧ (parseLocal iso_timestamp = none →
        convert_to_local_time parseLocal iso_timestamp = iso_timestamp
        ∧ convert_to_local_time parseLocal (convert_to_local_time parseLocal iso_timestamp)
            = convert_to_local_time parseLocal iso_timestamp) := by
  constructor
  · intro dt h
    simp [convert_to_local_time, h]
  · intro h
    have h1 : convert_to_local_time parseLocal iso_timestamp = iso_timestamp := by
      simp [convert_to_local_time, h]
    exact ⟨h1, by rw [h1, h1]⟩

/-- Witness for C7 at concrete inputs: one parseable UTC timestamp rendered
in the fixed format, and one unparseable string returned unchanged. -/
theorem c7_witness :
    convert_to_local_time sampleParse "2023-08-01T12:30:45.123456+00:00"
      = "2023-08-01 12:30:45.123456 UTC"
    ∧ convert_to_local_time sampleParse "not-a-timestamp" = "not-a-timestamp" := by
  constructor
  · rw [(c7_convert_to_local_time sampleParse "2023-08-01T12:30:45.123456+00:00").1
        ⟨2023, 8, 1, 12, 30, 45, 123456, "UTC"⟩ rfl]
    rfl
  · exact ((c7_convert_to_local_time sampleParse "not-a-timestamp").2 rfl).1

/-- C8: constructing a SiteStatus with both URLs absent fails with the
validator error, and every successfully constructed SiteStatus carries at
least one URL. -/
theorem c8_site_status_requires_a_url :
    (∀ (reachable : Bool) (updated_at : Option String),
        mk_site_status none none reachable updated_at
          = .error "At least one of the URLs is required.")
    ∧ (∀ (f b : Option String) (reachable : Bool) (updated_at : Option String)
        (s : SiteStatus), mk_site_status f b reachable updated_at = .ok s →
          s.frontend_url ≠ none ∨ s.backend_url ≠ none) := by
  constructor
  · intro r u; rfl
  · intro f b r u s h
    cases f with
    | none =>
      cases b with
      | none => simp [mk_site_status] at h
      | some bv =>
        simp [mk_site_status] at h
        subst h
        right; simp
    | some fv =>
      simp [mk_site_status] at h
      subst h
      left; simp

/-- Witness for C8 at a concrete input: a frontend-only status. -/
theorem c8_witness :
    SiteStatus.frontend_url ⟨some "https://f.example", none, true, none⟩ ≠ none
    ∨ SiteStatus.backend_url ⟨some "https://f.example", none, true, none⟩ ≠ none :=
  c8_site_status_requires_a_url.2 (some "https://f.example") none true none
    ⟨some "https://f.example", none, true, none⟩ rfl

/-- C9: loading the persisted credential reports the identical
"no existing login found" failure for an absent file, for malformed content
(including an empty file), and for a missing or empty access token, so
callers cannot distinguish corruption from absence. -/
theorem c9_load_failures_uniform :
    get_existing_access_token none = .error "no existing login found"
    ∧ get_existing_access_token (some ConfigContent.emptyFile)
        = .error "no existing login found"
    ∧ get_existing_access_token (some ConfigContent.malformed)
        = .error "no existing login found"
    ∧ (∀ code, get_existing_access_token (some (ConfigContent.record none code))
        = .error "no existing login found")
    ∧ (∀ code, get_existing_access_token (some (ConfigContent.record (some "") code))
        = .error "no existing login found") :=
  ⟨rfl, rfl, rfl, fun _ => rfl, fun _ => rfl⟩

/-- C10: `authenticated_token` is a total function (every exception of the
load, validation and deletion steps is caught) and returns the cached token
exactly when loading succeeded and the server validated it; in every other
outcome it returns none. -/
theorem c10_authenticated_token_total (fs : FileState) (server : ServerResponse) :
    ∀ t : String, (authenticated_token fs server).result = some t ↔
      ((∃ code, get_existing_access_token fs = .ok (t, code))
        ∧ server = ServerResponse.ok) := by
  intro t
  constructor
  · intro h
    cases hload : get_existing_access_token fs with
    | error e => simp [authenticated_token, hload] at h
    | ok p =>
      obtain ⟨tok, code⟩ := p
      have hne : tok ≠ "" := get_existing_token_ne_empty hload
      cases server with
      | ok =>
        simp [authenticated_token, hload, validate_token, hne] at h
        subst h
        exact ⟨⟨code, rfl⟩, rfl⟩
      | forbidden => simp [authenticated_token, hload, validate_token, hne] at h
      | errorStatus => simp [authenticated_token, hload, validate_token, hne] at h
      | networkError => simp [authenticated_token, hload, validate_token, hne] at h
  · rintro ⟨⟨code, hload⟩, rfl⟩
    have hne : t ≠ "" := get_existing_token_ne_empty hload
    simp [authenticated_token, hload, validate_token, hne]

/-- Witness for C10 at a concrete input: valid cached token accepted by the
server. -/
theorem c10_witness :
    (authenticated_token (some (ConfigContent.record (some "tok") none))
        ServerResponse.ok).result = some "tok" :=
  (c10_authenticated_token_total (some (ConfigContent.record (some "tok") none))
      ServerResponse.ok "tok").mpr ⟨⟨none, rfl⟩, rfl⟩

end Hosting
